import Mathlib

/-!
Verification of the GenAI playground script (`main.py`): the response
normalizer of `structured_json_response`, the prompt builders, the unified
`generate_response` adapter, and the `function_call` dispatch table.

Strings are modelled at the character level (`List Char`); Python machine
floats are modelled as rationals. ASCII whitespace is modelled (the script
only ever meets ASCII fences and JSON punctuation at the trim boundaries).
-/

namespace GenAI

/-- ASCII whitespace as recognized both by Python's `str.strip()` and by the
`\s` class of the `re` module: space, tab, newline, carriage return,
vertical tab and form feed. -/
def isPyWs (c : Char) : Bool :=
  c = ' ' || c = '\t' || c = '\n' || c = '\r' || c = '\x0b' || c = '\x0c'

/-- `str.strip()`: remove leading and trailing whitespace. -/
def pyStrip (l : List Char) : List Char :=
  List.rdropWhile isPyWs (l.dropWhile isPyWs)

/-- The head of the list, if any, is not whitespace. -/
def headNotWs (l : List Char) : Bool :=
  match l with
  | [] => true
  | c :: _ => !isPyWs c

/-- The last element of the list, if any, is not whitespace. -/
def lastNotWs (l : List Char) : Bool :=
  headNotWs l.reverse

/-- `re.sub(r"^```(?:json)?\s*", "", clean)` from `structured_json_response`
(main.py line 103): the anchored pattern matches at most once, greedily
taking the literal lowercase tag `json` when present and then a maximal run
of whitespace. -/
def stripLeadingFence (l : List Char) : List Char :=
  if List.isPrefixOf ("```json".toList) l then (l.drop 7).dropWhile isPyWs
  else if List.isPrefixOf ("```".toList) l then (l.drop 3).dropWhile isPyWs
  else l

/-- `re.sub(r"\s*```$", "", clean)` from `structured_json_response`
(main.py line 105).  Without `re.MULTILINE` the pattern can end either at
the very end of the string or just before one final newline; the leftmost
match maximizes the whitespace run swallowed before the backticks. -/
def stripTrailingFence (l : List Char) : List Char :=
  if List.isSuffixOf ("```".toList) l then List.rdropWhile isPyWs (l.rdrop 3)
  else if List.isSuffixOf ("```\n".toList) l then
    List.rdropWhile isPyWs (l.rdrop 4) ++ ['\n']
  else l

/-- Lines 101-105 of `structured_json_response`: trim, strip one leading
fence marker, strip one trailing fence marker. -/
def cleanFences (l : List Char) : List Char :=
  stripTrailingFence (stripLeadingFence (pyStrip l))

/-- A parsed JSON document, as produced by `json.loads`.  Numbers are kept
as a decimal mantissa/exponent pair read off the lexeme; objects keep their
members in source order. -/
inductive JsonValue where
  | null : JsonValue
  | bool (b : Bool) : JsonValue
  | num (mantissa : Int) (exp10 : Int) : JsonValue
  | str (s : List Char) : JsonValue
  | arr (elems : List JsonValue) : JsonValue
  | obj (members : List (List Char × JsonValue)) : JsonValue

/-- The whitespace `json.loads` skips between tokens. -/
def isJsonWs (c : Char) : Bool :=
  c = ' ' || c = '\t' || c = '\n' || c = '\r'

/-- Value of one hexadecimal digit. -/
def hexDigitVal (c : Char) : Option Nat :=
  if '0' ≤ c ∧ c ≤ '9' then some (c.toNat - 48)
  else if 'a' ≤ c ∧ c ≤ 'f' then some (c.toNat - 87)
  else if 'A' ≤ c ∧ c ≤ 'F' then some (c.toNat - 55)
  else none

/-- Decimal digits to a natural number. -/
def digitsToNat (ds : List Char) : Nat :=
  ds.foldl (fun n c => 10 * n + (c.toNat - 48)) 0

/-- Body of a JSON string literal after the opening quote: returns the
decoded characters and the input after the closing quote.  Strict mode:
unescaped control characters are rejected, only the eight JSON escapes and
`\uXXXX` are accepted. -/
def parseStringRest : List Char → Option (List Char × List Char)
  | [] => none
  | c :: rest =>
    if c = '"' then some ([], rest)
    else if c = '\\' then
      match rest with
      | [] => none
      | e :: rest2 =>
        if e = 'u' then
          match rest2 with
          | a :: b :: c2 :: d :: rest3 => do
            let ha ← hexDigitVal a
            let hb ← hexDigitVal b
            let hc ← hexDigitVal c2
            let hd ← hexDigitVal d
            let (s, rem) ← parseStringRest rest3
            some (Char.ofNat (((ha * 16 + hb) * 16 + hc) * 16 + hd) :: s, rem)
          | _ => none
        else do
          let ec ←
            if e = '"' then some '"'
            else if e = '\\' then some '\\'
            else if e = '/' then some '/'
            else if e = 'b' then some '\x08'
            else if e = 'f' then some '\x0c'
            else if e = 'n' then some '\n'
            else if e = 'r' then some '\r'
            else if e = 't' then some '\t'
            else none
          let (s, rem) ← parseStringRest rest2
          some (ec :: s, rem)
    else if c.toNat < 32 then none
    else do
      let (s, rem) ← parseStringRest rest
      some (c :: s, rem)

/-- Optional fraction part `.digits` of a JSON number. -/
def parseFrac : List Char → Option (List Char × List Char)
  | '.' :: r =>
    let ds := r.takeWhile Char.isDigit
    if ds.isEmpty then none else some (ds, r.dropWhile Char.isDigit)
  | l => some (([] : List Char), l)

/-- Optional exponent part `[eE][+-]?digits` of a JSON number. -/
def parseExp : List Char → Option (Int × List Char)
  | [] => some ((0 : Int), ([] : List Char))
  | e :: r =>
    if e = 'e' ∨ e = 'E' then
      let (esign, r2) : Int × List Char :=
        match r with
        | '+' :: r3 => ((1 : Int), r3)
        | '-' :: r3 => ((-1 : Int), r3)
        | _ => ((1 : Int), r)
      let ds := r2.takeWhile Char.isDigit
      if ds.isEmpty then none
      else some (esign * (digitsToNat ds : Int), r2.dropWhile Char.isDigit)
    else some ((0 : Int), e :: r)

/-- A JSON number per RFC 8259: `-?(0|[1-9][0-9]*)(\.[0-9]+)?([eE][+-]?[0-9]+)?`.
Returns mantissa and power-of-ten exponent.  (The non-standard
`NaN`/`Infinity` extensions of `json.loads` are outside the modelled
grammar; none of the verified properties involves them.) -/
def parseNumber (l : List Char) : Option ((Int × Int) × List Char) :=
  let (neg, s1) : Bool × List Char :=
    match l with
    | '-' :: r => (true, r)
    | _ => (false, l)
  match s1 with
  | [] => none
  | c :: r =>
    if c = '0' ∨ ('1' ≤ c ∧ c ≤ '9') then
      let intDs := if c = '0' then [c] else c :: r.takeWhile Char.isDigit
      let rest := if c = '0' then r else r.dropWhile Char.isDigit
      match parseFrac rest with
      | none => none
      | some (fracDs, l2) =>
        match parseExp l2 with
        | none => none
        | some (e, l3) =>
          let mAbs : Nat := digitsToNat (intDs ++ fracDs)
          let m : Int := if neg then -(mAbs : Int) else (mAbs : Int)
          some ((m, e - (fracDs.length : Int)), l3)
    else none

mutual

/-- Recursive-descent JSON value parser, fuel-indexed; consumes the value
starting at the head of the input (no leading whitespace) and returns the
unconsumed rest. -/
def parseValue : Nat → List Char → Option (JsonValue × List Char)
  | 0, _ => none
  | _ + 1, [] => none
  | fuel + 1, c :: rest =>
    if c = '"' then
      match parseStringRest rest with
      | some (s, rem) => some (.str s, rem)
      | none => none
    else if c = Char.ofNat 123 then
      let rest2 := rest.dropWhile isJsonWs
      match rest2 with
      | d :: rest3 =>
        if d = Char.ofNat 125 then some (.obj [], rest3)
        else
          match parseMember fuel rest2 with
          | some (kv, rem) =>
            match parseMembersRest fuel rem with
            | some (kvs, rem2) => some (.obj (kv :: kvs), rem2)
            | none => none
          | none => none
      | [] => none
    else if c = '[' then
      let rest2 := rest.dropWhile isJsonWs
      match rest2 with
      | d :: rest3 =>
        if d = ']' then some (.arr [], rest3)
        else
          match parseValue fuel rest2 with
          | some (v, rem) =>
            match parseItemsRest fuel rem with
            | some (vs, rem2) => some (.arr (v :: vs), rem2)
            | none => none
          | none => none
      | [] => none
    else if c = 't' then
      match rest with
      | 'r' :: 'u' :: 'e' :: rem => some (.bool true, rem)
      | _ => none
    else if c = 'f' then
      match rest with
      | 'a' :: 'l' :: 's' :: 'e' :: rem => some (.bool false, rem)
      | _ => none
    else if c = 'n' then
      match rest with
      | 'u' :: 'l' :: 'l' :: rem => some (.null, rem)
      | _ => none
    else
      match parseNumber (c :: rest) with
      | some ((m, e), rem) => some (.num m e, rem)
      | none => none

/-- Array elements after the first: `(, value)* ]`. -/
def parseItemsRest : Nat → List Char → Option (List JsonValue × List Char)
  | 0, _ => none
  | fuel + 1, l =>
    match l.dropWhile isJsonWs with
    | ']' :: rem => some (([] : List JsonValue), rem)
    | ',' :: rem =>
      match parseValue fuel (rem.dropWhile isJsonWs) with
      | some (v, rem2) =>
        match parseItemsRest fuel rem2 with
        | some (vs, rem3) => some (v :: vs, rem3)
        | none => none
      | none => none
    | _ => none

/-- One `"key" : value` object member. -/
def parseMember : Nat → List Char → Option ((List Char × JsonValue) × List Char)
  | 0, _ => none
  | fuel + 1, l =>
    match l with
    | '"' :: r =>
      match parseStringRest r with
      | some (k, rem) =>
        match rem.dropWhile isJsonWs with
        | ':' :: rem2 =>
          match parseValue fuel (rem2.dropWhile isJsonWs) with
          | some (v, rem3) => some ((k, v), rem3)
          | none => none
        | _ => none
      | none => none
    | _ => none

/-- Object members after the first: `(, member)* closing-brace`. -/
def parseMembersRest :
    Nat → List Char → Option (List (List Char × JsonValue) × List Char)
  | 0, _ => none
  | fuel + 1, l =>
    match l.dropWhile isJsonWs with
    | ',' :: rem =>
      match parseMember fuel (rem.dropWhile isJsonWs) with
      | some (kv, rem2) =>
        match parseMembersRest fuel rem2 with
        | some (kvs, rem3) => some (kv :: kvs, rem3)
        | none => none
      | none => none
    | d :: rem => if d = Char.ofNat 125 then some ([], rem) else none
    | [] => none

end

/-- `json.loads`: skip leading whitespace, parse one value, require only
whitespace after it.  The fuel bound `2 * length + 2` over-provisions: every
mutual call consumes at least one input character first, so `length + 1`
levels already suffice. -/
def jsonParse (l : List Char) : Option JsonValue :=
  let l0 := l.dropWhile isJsonWs
  match parseValue (2 * l0.length + 2) l0 with
  | some (v, rest) => if (rest.dropWhile isJsonWs).isEmpty then some v else none
  | none => none

/-- What `structured_json_response` hands back to its caller after the
provider reply arrived: either the parsed JSON object, or the
`{"error": ..., "raw_response": ...}` dictionary built on parse failure. -/
inductive StructuredAnswer where
  | parsed (v : JsonValue) : StructuredAnswer
  | parseError (error : String) (raw_response : List Char) : StructuredAnswer

/-- The post-processing of `structured_json_response` (main.py lines
100-110), applied to the text `result` returned by `generate_response`:
trim, strip fences, `json.loads`, and on `JSONDecodeError` return the
error dictionary carrying the untouched `result`.  A total function: the
parse failure is reported as data, never raised. -/
def structured_json_post (result : List Char) : StructuredAnswer :=
  match jsonParse (cleanFences result) with
  | some v => .parsed v
  | none => .parseError "Failed to parse JSON" result

/-- The provider selected at startup (`PROVIDER` env variable). -/
inductive Provider where
  | google : Provider
  | openai : Provider

/-- `generate_response` (main.py lines 49-73).  The vendor SDK is an
external oracle: `oracle n` is the outcome of the `n`-th network call the
process would make, either the reply text or a raised exception of type
`ε`.  Both branches make exactly one call (`oracle 0`), return the reply
text stripped of surrounding whitespace, and re-raise any exception
unchanged after logging. -/
def generate_response {ε : Type} (p : Provider)
    (oracle : Nat → Except ε (List Char)) (_prompt : String) :
    Except ε (List Char) :=
  match p with
  | .google =>
    match oracle 0 with
    | .ok t => .ok (pyStrip t)
    | .error e => .error e
  | .openai =>
    match oracle 0 with
    | .ok t => .ok (pyStrip t)
    | .error e => .error e

/-- One few-shot example, a `{"question": ..., "answer": ...}` dict. -/
structure Example where
  question : String
  answer : String

/-- The prompt built by `few_shot_prompt` (main.py lines 83-86): a loop
appending `Q: <question>\nA: <answer>\n` per example, then the query line. -/
def few_shot_prompt_text (query : String) (examples : List Example) : String :=
  (examples.foldl
    (fun prompt ex => prompt ++ "Q: " ++ ex.question ++ "\nA: " ++ ex.answer ++ "\n")
    "") ++ "Q: " ++ query ++ "\nA:"

/-- `few_shot_prompt` (main.py lines 79-87): build the prompt, send it. -/
def few_shot_prompt {ε : Type} (p : Provider)
    (oracle : Nat → Except ε (List Char)) (query : String)
    (examples : List Example) : Except ε (List Char) :=
  generate_response p oracle (few_shot_prompt_text query examples)

/-- The instruction prompt of `structured_json_response` (main.py 94-98). -/
def structured_json_prompt (query : String) : String :=
  "Answer the following question in JSON format " ++
    "'\x7b\"answer\": \"Your answer here\"\x7d'. " ++ "Question: " ++ query

/-- `structured_json_response` (main.py lines 93-110): build the prompt,
call `generate_response` (whose exception propagates), then normalize. -/
def structured_json_response {ε : Type} (p : Provider)
    (oracle : Nat → Except ε (List Char)) (query : String) :
    Except ε StructuredAnswer :=
  match generate_response p oracle (structured_json_prompt query) with
  | .ok result => .ok (structured_json_post result)
  | .error e => .error e

/-- The prompt built by `retrieval_augmented_generation` (main.py 120). -/
def rag_prompt_text (context : String) (question : String) : String :=
  "Context: " ++ context ++ "\nQuestion: " ++ question ++ "\nAnswer:"

/-- `retrieval_augmented_generation` (main.py lines 116-121). -/
def retrieval_augmented_generation {ε : Type} (p : Provider)
    (oracle : Nat → Except ε (List Char)) (context : String)
    (question : String) : Except ε (List Char) :=
  generate_response p oracle (rag_prompt_text context question)

namespace Calculator

/-- `Calculator.add` (main.py 130-132); Python floats as rationals. -/
def add (a b : ℚ) : ℚ := a + b

/-- `Calculator.multiply` (main.py 134-136). -/
def multiply (a b : ℚ) : ℚ := a * b

end Calculator

/-- The dict literal `{"add": Calculator.add, "multiply": Calculator.multiply}`
of `function_call` (main.py 143), as a lookup. -/
def functionsTable (name : String) : Option (ℚ → ℚ → ℚ) :=
  if name = "add" then some Calculator.add
  else if name = "multiply" then some Calculator.multiply
  else none

/-- `function_call` (main.py lines 139-146), at the arity the registered
operations accept: look the name up, raise `ValueError` when absent. -/
def function_call (function_name : String) (a b : ℚ) : Except String ℚ :=
  match functionsTable function_name with
  | some f => .ok (f a b)
  | none => .error ("Function '" ++ function_name ++ "' not supported.")

/-- Modelled from the spec (section 4.3 edge cases): the normalizer as it
would behave "as if no stripping step existed" — trim, then parse.  Used
only to compare with `structured_json_post` on fence-free input. -/
def noStripNormalize (result : List Char) : StructuredAnswer :=
  match jsonParse (pyStrip result) with
  | some v => .parsed v
  | none => .parseError "Failed to parse JSON" result

/-- Modelled from the spec (section 4.2): the few-shot prompt as described,
one `Q:`/`A:` line pair per example in order, then the query pair with the
answer left open. -/
def specFewShotText (query : String) (examples : List Example) : String :=
  (examples.map fun ex => "Q: " ++ ex.question ++ "\nA: " ++ ex.answer ++ "\n").foldr
    (fun line acc => line ++ acc) ("Q: " ++ query ++ "\nA:")

theorem ticksJson_toList : ("```json".toList) = [Char.ofNat 96, Char.ofNat 96, Char.ofNat 96, 'j', 's', 'o', 'n'] := rfl

theorem ticks_toList : ("```".toList) = [Char.ofNat 96, Char.ofNat 96, Char.ofNat 96] := rfl

theorem ticksNl_toList : ("```\n".toList) = [Char.ofNat 96, Char.ofNat 96, Char.ofNat 96, '\n'] := rfl

theorem headNotWs_dropWhile (l : List Char) :
    headNotWs (l.dropWhile isPyWs) = true := by
  induction l with
  | nil => rfl
  | cons c t ih =>
    by_cases h : isPyWs c
    · simpa [List.dropWhile_cons, h] using ih
    · simp [List.dropWhile_cons, h, headNotWs]

theorem dropWhile_eq_self_of_headNotWs {l : List Char}
    (h : headNotWs l = true) : l.dropWhile isPyWs = l := by
  cases l with
  | nil => rfl
  | cons c t =>
    simp only [headNotWs, Bool.not_eq_true'] at h
    simp [List.dropWhile_cons, h]

theorem lastNotWs_rdropWhile (l : List Char) :
    lastNotWs (List.rdropWhile isPyWs l) = true := by
  unfold lastNotWs
  rw [List.rdropWhile, List.reverse_reverse]
  exact headNotWs_dropWhile _

theorem rdropWhile_eq_self_of_lastNotWs {l : List Char}
    (h : lastNotWs l = true) : List.rdropWhile isPyWs l = l := by
  unfold lastNotWs at h
  rw [List.rdropWhile, dropWhile_eq_self_of_headNotWs h, List.reverse_reverse]

theorem headNotWs_of_isPre {m l : List Char} (h : m <+: l)
    (hl : headNotWs l = true) : headNotWs m = true := by
  obtain ⟨t, rfl⟩ := h
  cases m with
  | nil => rfl
  | cons c r => simpa [headNotWs, List.cons_append] using hl

theorem lastNotWs_of_isSuf {m l : List Char} (h : m <:+ l)
    (hl : lastNotWs l = true) : lastNotWs m = true := by
  unfold lastNotWs at *
  exact headNotWs_of_isPre ( List.reverse_prefix.mpr h) hl

theorem headNotWs_pyStrip (l : List Char) : headNotWs (pyStrip l) = true :=
  headNotWs_of_isPre ( List.rdropWhile_prefix _ _) (headNotWs_dropWhile l)

theorem lastNotWs_pyStrip (l : List Char) : lastNotWs (pyStrip l) = true :=
  lastNotWs_rdropWhile _

theorem pyStrip_eq_self {l : List Char} (h1 : headNotWs l = true)
    (h2 : lastNotWs l = true) : pyStrip l = l := by
  unfold pyStrip
  rw [dropWhile_eq_self_of_headNotWs h1, rdropWhile_eq_self_of_lastNotWs h2]

theorem headNotWs_stripLeadingFence {l : List Char}
    (h : headNotWs l = true) : headNotWs (stripLeadingFence l) = true := by
  unfold stripLeadingFence
  split
  · exact headNotWs_dropWhile _
  · split
    · exact headNotWs_dropWhile _
    · exact h

theorem lastNotWs_stripLeadingFence {l : List Char}
    (h : lastNotWs l = true) : lastNotWs (stripLeadingFence l) = true := by
  unfold stripLeadingFence
  split
  · exact lastNotWs_of_isSuf (List.dropWhile_suffix _)
      (lastNotWs_of_isSuf (List.drop_suffix _ _) h)
  · split
    · exact lastNotWs_of_isSuf (List.dropWhile_suffix _)
        (lastNotWs_of_isSuf (List.drop_suffix _ _) h)
    · exact h

theorem isSuffixOf_ticksNl_eq_false {m : List Char}
    (h : lastNotWs m = true) :
    List.isSuffixOf ("```\n".toList) m = false := by
  unfold lastNotWs at h
  show List.isPrefixOf (("```\n".toList).reverse) m.reverse = false
  cases hr : m.reverse with
  | nil => rfl
  | cons c r =>
    rw [hr] at h
    simp only [headNotWs, Bool.not_eq_true'] at h
    have hcn : ('\n' == c) = false := by
      cases hc : ('\n' == c) with
      | false => rfl
      | true =>
        rw [beq_iff_eq] at hc
        rw [← hc] at h
        simp [isPyWs] at h
    simp [ticksNl_toList, List.isPrefixOf, hcn]

theorem stripTrailingFence_boundary {m : List Char}
    (h1 : headNotWs m = true) (h2 : lastNotWs m = true) :
    headNotWs (stripTrailingFence m) = true ∧
      lastNotWs (stripTrailingFence m) = true := by
  unfold stripTrailingFence
  rw [isSuffixOf_ticksNl_eq_false h2]
  split
  · constructor
    · exact headNotWs_of_isPre ( List.rdropWhile_prefix _ _)
        (headNotWs_of_isPre ( List.take_prefix _ _) h1)
    · exact lastNotWs_rdropWhile _
  · simp [h1, h2]

theorem headNotWs_cleanFences (l : List Char) :
    headNotWs (cleanFences l) = true :=
  (stripTrailingFence_boundary
    (headNotWs_stripLeadingFence (headNotWs_pyStrip l))
    (lastNotWs_stripLeadingFence (lastNotWs_pyStrip l))).1

theorem lastNotWs_cleanFences (l : List Char) :
    lastNotWs (cleanFences l) = true :=
  (stripTrailingFence_boundary
    (headNotWs_stripLeadingFence (headNotWs_pyStrip l))
    (lastNotWs_stripLeadingFence (lastNotWs_pyStrip l))).2

theorem pyStrip_cleanFences (l : List Char) :
    pyStrip (cleanFences l) = cleanFences l :=
  pyStrip_eq_self (headNotWs_cleanFences l) (lastNotWs_cleanFences l)

theorem isPrefixOf_ticks_of_ticksJson {m : List Char}
    (h : List.isPrefixOf ("```json".toList) m = true) :
    List.isPrefixOf ("```".toList) m = true := by
  rw [ticksJson_toList] at h
  rw [ticks_toList]
  cases m with
  | nil => simp [List.isPrefixOf] at h
  | cons a r =>
    cases r with
    | nil => simp [List.isPrefixOf] at h
    | cons b r2 =>
      cases r2 with
      | nil => simp [List.isPrefixOf] at h
      | cons c r3 =>
        simp only [List.isPrefixOf, Bool.and_eq_true] at h ⊢
        exact ⟨h.1, h.2.1, h.2.2.1, trivial⟩

theorem stripLeadingFence_eq_self {m : List Char}
    (h : List.isPrefixOf ("```".toList) m = false) :
    stripLeadingFence m = m := by
  unfold stripLeadingFence
  rw [h]
  have hj : List.isPrefixOf ("```json".toList) m = false := by
    cases hc : List.isPrefixOf ("```json".toList) m with
    | false => rfl
    | true => rw [isPrefixOf_ticks_of_ticksJson hc] at h; cases h
  rw [hj]
  simp

theorem stripTrailingFence_eq_self {m : List Char}
    (h : List.isSuffixOf ("```".toList) m = false)
    (h2 : lastNotWs m = true) :
    stripTrailingFence m = m := by
  unfold stripTrailingFence
  rw [h, isSuffixOf_ticksNl_eq_false h2]
  simp

theorem foldl_append_eq_foldr (line : Example → String)
    (step : String → Example → String)
    (hstep : ∀ p e, step p e = p ++ line e) (exs : List Example) :
    ∀ acc tail, (exs.foldl step acc) ++ tail
      = acc ++ (exs.map line).foldr (fun s t => s ++ t) tail := by
  induction exs with
  | nil => intro acc tail; simp [List.foldl_nil, List.map_nil, List.foldr_nil]
  | cons e rest ih =>
    intro acc tail
    rw [List.foldl_cons, hstep, ih, List.map_cons, List.foldr_cons,
      String.append_assoc]

/-- C6: the few-shot prompt builder emits `Q: <question>\nA: <answer>\n` for
each example in order, then `Q: <query>\nA:` with no trailing answer; on the
empty list it is exactly `"Q: X?\nA:"`, and on one example exactly
`"Q: Y?\nA: Z\nQ: X?\nA:"`. -/
theorem few_shot_prompt_text_format :
    few_shot_prompt_text "X?" [] = "Q: X?\nA:"
    ∧ few_shot_prompt_text "X?" [⟨"Y?", "Z"⟩] = "Q: Y?\nA: Z\nQ: X?\nA:"
    ∧ ∀ (query : String) (examples : List Example),
        few_shot_prompt_text query examples = specFewShotText query examples := by
  refine ⟨by decide, by decide, ?_⟩
  intro query examples
  unfold few_shot_prompt_text specFewShotText
  rw [String.append_assoc, String.append_assoc,
    foldl_append_eq_foldr
      (fun ex => "Q: " ++ ex.question ++ "\nA: " ++ ex.answer ++ "\n") _
      (fun p e => by simp only [String.append_assoc]) examples,
    String.empty_append, ← String.append_assoc]

/-- C7: the RAG prompt builder is the pure function emitting exactly
`Context: <context>\nQuestion: <question>\nAnswer:`. -/
theorem rag_prompt_text_format :
    (∀ context question : String,
        rag_prompt_text context question =
          "Context: " ++ context ++ "\nQuestion: " ++ question ++ "\nAnswer:")
    ∧ rag_prompt_text "C" "Q" = "Context: C\nQuestion: Q\nAnswer:" :=
  ⟨fun _ _ => rfl, by decide⟩

/-- C3: `function_call` dispatches `"add"` to rational addition and
`"multiply"` to rational multiplication (`call("add",5,3) = 8`,
`call("multiply",5,3) = 15`), and raises `ValueError` — modelled as the
`Except.error` branch — exactly for names outside `{"add", "multiply"}`,
such as `"divide"`. -/
theorem function_call_dispatch :
    (∀ a b : ℚ, function_call "add" a b = .ok (a + b))
    ∧ function_call "add" 5 3 = .ok 8
    ∧ (∀ a b : ℚ, function_call "multiply" a b = .ok (a * b))
    ∧ function_call "multiply" 5 3 = .ok 15
    ∧ function_call "divide" 5 3 = .error "Function 'divide' not supported."
    ∧ (∀ (name : String) (a b : ℚ),
        (∃ msg, function_call name a b = .error msg) ↔
          (name ≠ "add" ∧ name ≠ "multiply")) := by
  refine ⟨fun a b => rfl,
    by simp [function_call, functionsTable, Calculator.add]; norm_num,
    fun a b => rfl,
    by simp [function_call, functionsTable, Calculator.multiply]; norm_num,
    rfl, ?_⟩
  intro name a b
  constructor
  · rintro ⟨msg, h⟩
    constructor
    · intro h1
      rw [h1] at h
      simp [function_call, functionsTable] at h
    · intro h2
      rw [h2] at h
      simp [function_call, functionsTable] at h
  · rintro ⟨h1, h2⟩
    exact ⟨"Function '" ++ name ++ "' not supported.",
      by simp [function_call, functionsTable, h1, h2]⟩

/-- C9: `generate_response` performs exactly one provider attempt — its
outcome is determined by the first oracle call alone — and on failure it
propagates that same exception unchanged, with no retry and no fallback
value. -/
theorem generate_response_single_attempt {ε : Type} (p : Provider)
    (prompt : String) (oracle : Nat → Except ε (List Char)) :
    (∀ e : ε, oracle 0 = .error e → generate_response p oracle prompt = .error e)
    ∧ (∀ oracle2 : Nat → Except ε (List Char), oracle2 0 = oracle 0 →
        generate_response p oracle2 prompt = generate_response p oracle prompt) := by
  constructor
  · intro e h
    cases p <;> simp [generate_response, h]
  · intro oracle2 h
    cases p <;> simp [generate_response, h]

theorem generate_response_single_attempt_witness :
    (fun _ : Nat => (Except.error "boom" : Except String (List Char))) 0
        = Except.error "boom"
    ∧ generate_response Provider.google
        (fun _ => Except.error "boom") "prompt" = Except.error "boom" :=
  ⟨rfl, (generate_response_single_attempt Provider.google "prompt"
    (fun _ => Except.error "boom")).1 "boom" rfl⟩

/-- C10: a successful `generate_response` returns the provider text with
surrounding whitespace stripped — it never begins or ends with whitespace —
and therefore the `raw_response` field a later parse failure reports is this
already-stripped text. -/
theorem generate_response_strips_whitespace {ε : Type} (p : Provider)
    (prompt : String) (oracle : Nat → Except ε (List Char)) (t : List Char)
    (h : oracle 0 = .ok t) :
    generate_response p oracle prompt = .ok (pyStrip t)
    ∧ headNotWs (pyStrip t) = true
    ∧ lastNotWs (pyStrip t) = true
    ∧ ∀ (query err : String) (raw : List Char),
        structured_json_response p oracle query = .ok (.parseError err raw) →
        raw = pyStrip t := by
  have hgen : generate_response p oracle prompt = .ok (pyStrip t) := by
    cases p <;> simp [generate_response, h]
  refine ⟨hgen, headNotWs_pyStrip t, lastNotWs_pyStrip t, ?_⟩
  intro query err raw hq
  have hgen2 : generate_response p oracle (structured_json_prompt query)
      = .ok (pyStrip t) := by
    cases p <;> simp [generate_response, h]
  unfold structured_json_response at hq
  rw [hgen2] at hq
  have hq2 : structured_json_post (pyStrip t) = .parseError err raw :=
    Except.ok.inj hq
  unfold structured_json_post at hq2
  cases hj : jsonParse (cleanFences (pyStrip t)) with
  | some v => rw [hj] at hq2; exact StructuredAnswer.noConfusion hq2
  | none =>
    rw [hj] at hq2
    cases hq2
    rfl

theorem generate_response_strips_whitespace_witness :
    (fun _ : Nat => (Except.ok ("  hi  ".toList) : Except String (List Char))) 0
        = Except.ok ("  hi  ".toList)
    ∧ (generate_response Provider.openai
          (fun _ : Nat => (Except.ok ("  hi  ".toList) : Except String (List Char)))
          "prompt"
        = Except.ok (pyStrip ("  hi  ".toList))
      ∧ headNotWs (pyStrip ("  hi  ".toList)) = true
      ∧ lastNotWs (pyStrip ("  hi  ".toList)) = true
      ∧ ∀ (query err : String) (raw : List Char),
          structured_json_response Provider.openai
              (fun _ : Nat =>
                (Except.ok ("  hi  ".toList) : Except String (List Char))) query
            = .ok (.parseError err raw) →
          raw = pyStrip ("  hi  ".toList)) :=
  ⟨rfl, generate_response_strips_whitespace Provider.openai "prompt"
    (fun _ => Except.ok ("  hi  ".toList)) ("  hi  ".toList) rfl⟩

theorem dropWhile_eq_self_append {t m : List Char} (ht : t ≠ [])
    (h : headNotWs t = true) : (t ++ m).dropWhile isPyWs = t ++ m := by
  cases t with
  | nil => cases ht rfl
  | cons c r =>
    simp only [headNotWs, Bool.not_eq_true'] at h
    simp [List.cons_append, List.dropWhile_cons, h]

theorem stripTrailingFence_concat_ticks {t : List Char}
    (hl : lastNotWs t = true) :
    stripTrailingFence (t ++ ("\n```".toList)) = t := by
  have hsuf : List.isSuffixOf ("```".toList) (t ++ ("\n```".toList)) = true := by
    show List.isPrefixOf (("```".toList).reverse) ((t ++ ("\n```".toList)).reverse)
      = true
    rw [List.reverse_append]
    rfl
  have h3 : (t ++ ("\n```".toList)).rdrop 3 = t ++ ['\n'] := by
    rw [ List.rdrop_append_of_le_length 3 (by decide)]
    rfl
  unfold stripTrailingFence
  rw [hsuf]
  simp only [if_true]
  rw [h3, List.rdropWhile_concat_pos _ _ _ (by decide)]
  exact rdropWhile_eq_self_of_lastNotWs hl

theorem cleanFences_eq_self {t : List Char}
    (hh : headNotWs t = true) (hl : lastNotWs t = true)
    (hp : List.isPrefixOf ("```".toList) t = false)
    (hs : List.isSuffixOf ("```".toList) t = false) :
    cleanFences t = t := by
  unfold cleanFences
  rw [pyStrip_eq_self hh hl, stripLeadingFence_eq_self hp,
    stripTrailingFence_eq_self hs hl]

theorem cleanFences_wrapped_json {t : List Char} (ht : t ≠ [])
    (hh : headNotWs t = true) (hl : lastNotWs t = true) :
    cleanFences ((("```json\n".toList) ++ t) ++ ("\n```".toList)) = t := by
  have h1 : pyStrip ((("```json\n".toList) ++ t) ++ ("\n```".toList))
      = (("```json\n".toList) ++ t) ++ ("\n```".toList) :=
    pyStrip_eq_self rfl (by rw [lastNotWs, List.reverse_append]; rfl)
  have h2 : stripLeadingFence ((("```json\n".toList) ++ t) ++ ("\n```".toList))
      = (t ++ ("\n```".toList)).dropWhile isPyWs := rfl
  unfold cleanFences
  rw [h1, h2, dropWhile_eq_self_append ht hh, stripTrailingFence_concat_ticks hl]

theorem cleanFences_wrapped_plain {t : List Char} (ht : t ≠ [])
    (hh : headNotWs t = true) (hl : lastNotWs t = true) :
    cleanFences ((("```\n".toList) ++ t) ++ ("\n```".toList)) = t := by
  have h1 : pyStrip ((("```\n".toList) ++ t) ++ ("\n```".toList))
      = (("```\n".toList) ++ t) ++ ("\n```".toList) :=
    pyStrip_eq_self rfl (by rw [lastNotWs, List.reverse_append]; rfl)
  have h2 : stripLeadingFence ((("```\n".toList) ++ t) ++ ("\n```".toList))
      = (t ++ ("\n```".toList)).dropWhile isPyWs := rfl
  unfold cleanFences
  rw [h1, h2, dropWhile_eq_self_append ht hh, stripTrailingFence_concat_ticks hl]

/-- C1: whenever the fence-stripped, whitespace-trimmed text parses as
JSON, the normalizer returns exactly that parse; in particular a
well-formed JSON text is normalized to its parse whether it arrives bare,
in a `json`-tagged fence, or in an untagged fence. -/
theorem structured_json_normalizer_parses :
    (∀ (result : List Char) (v : JsonValue),
        jsonParse (cleanFences result) = some v →
        structured_json_post result = .parsed v)
    ∧ (∀ (t : List Char) (v : JsonValue),
        jsonParse t = some v →
        headNotWs t = true → lastNotWs t = true →
        List.isPrefixOf ("```".toList) t = false →
        List.isSuffixOf ("```".toList) t = false →
        structured_json_post t = .parsed v
        ∧ structured_json_post ((("```json\n".toList) ++ t) ++ ("\n```".toList))
            = .parsed v
        ∧ structured_json_post ((("```\n".toList) ++ t) ++ ("\n```".toList))
            = .parsed v) := by
  constructor
  · intro r v h
    unfold structured_json_post
    rw [h]
  · intro t v h hh hl hp hs
    have ht : t ≠ [] := by
      intro he
      rw [he] at h
      exact Option.noConfusion h
    refine ⟨?_, ?_, ?_⟩
    · unfold structured_json_post
      rw [cleanFences_eq_self hh hl hp hs, h]
    · unfold structured_json_post
      rw [cleanFences_wrapped_json ht hh hl, h]
    · unfold structured_json_post
      rw [cleanFences_wrapped_plain ht hh hl, h]

theorem structured_json_normalizer_parses_witness :
    jsonParse ("\x7b\"answer\": \"ok\"\x7d".toList)
        = some (.obj [(("answer".toList), .str ("ok".toList))])
    ∧ (structured_json_post ("\x7b\"answer\": \"ok\"\x7d".toList)
        = .parsed (.obj [(("answer".toList), .str ("ok".toList))])
      ∧ structured_json_post
          ((("```json\n".toList) ++ ("\x7b\"answer\": \"ok\"\x7d".toList)) ++
            ("\n```".toList))
        = .parsed (.obj [(("answer".toList), .str ("ok".toList))])
      ∧ structured_json_post
          ((("```\n".toList) ++ ("\x7b\"answer\": \"ok\"\x7d".toList)) ++
            ("\n```".toList))
        = .parsed (.obj [(("answer".toList), .str ("ok".toList))])) :=
  ⟨rfl, structured_json_normalizer_parses.2 ("\x7b\"answer\": \"ok\"\x7d".toList)
    (.obj [(("answer".toList), .str ("ok".toList))]) rfl rfl rfl
    (by decide) (by decide)⟩

/-- C2: when the trimmed, fence-stripped text does not parse as JSON — the
empty string included — the normalizer returns the error dictionary
`{"error": "Failed to parse JSON", "raw_response": <its input, unmodified>}`;
being a total function of its input, this layer raises nothing. -/
theorem structured_json_normalizer_error_shape :
    (∀ result : List Char,
        jsonParse (cleanFences result) = none →
        structured_json_post result = .parseError "Failed to parse JSON" result)
    ∧ structured_json_post [] = .parseError "Failed to parse JSON" [] := by
  constructor
  · intro result h
    unfold structured_json_post
    rw [h]
  · rfl

theorem structured_json_normalizer_error_shape_witness :
    jsonParse (cleanFences ("hello".toList)) = none
    ∧ structured_json_post ("hello".toList)
        = .parseError "Failed to parse JSON" ("hello".toList) :=
  ⟨rfl, structured_json_normalizer_error_shape.1 ("hello".toList) rfl⟩

/-- C8: fence removal is anchored.  When the trimmed text does not begin
with a triple-backtick marker the leading step is the identity, when it
does not end with one the trailing step is the identity, and on fence-free
input the whole normalizer behaves exactly as if the stripping steps did
not exist. -/
theorem fence_removal_anchored :
    (∀ s : List Char, List.isPrefixOf ("```".toList) (pyStrip s) = false →
        stripLeadingFence (pyStrip s) = pyStrip s)
    ∧ (∀ s : List Char, List.isSuffixOf ("```".toList) (pyStrip s) = false →
        stripTrailingFence (pyStrip s) = pyStrip s)
    ∧ (∀ s : List Char,
        List.isPrefixOf ("```".toList) (pyStrip s) = false →
        List.isSuffixOf ("```".toList) (pyStrip s) = false →
        cleanFences s = pyStrip s ∧
        structured_json_post s = noStripNormalize s) := by
  refine ⟨fun s hp => stripLeadingFence_eq_self hp,
    fun s hs => stripTrailingFence_eq_self hs (lastNotWs_pyStrip s), ?_⟩
  intro s hp hs
  have hc : cleanFences s = pyStrip s := by
    unfold cleanFences
    rw [stripLeadingFence_eq_self hp,
      stripTrailingFence_eq_self hs (lastNotWs_pyStrip s)]
  refine ⟨hc, ?_⟩
  unfold structured_json_post noStripNormalize
  rw [hc]

theorem fence_removal_anchored_witness :
    List.isPrefixOf ("```".toList) (pyStrip (" \x7b\"a\": 1\x7d ".toList)) = false
    ∧ List.isSuffixOf ("```".toList) (pyStrip (" \x7b\"a\": 1\x7d ".toList)) = false
    ∧ (cleanFences (" \x7b\"a\": 1\x7d ".toList)
          = pyStrip (" \x7b\"a\": 1\x7d ".toList)
      ∧ structured_json_post (" \x7b\"a\": 1\x7d ".toList)
          = noStripNormalize (" \x7b\"a\": 1\x7d ".toList)) :=
  ⟨by decide, by decide,
    fence_removal_anchored.2.2 (" \x7b\"a\": 1\x7d ".toList) (by decide) (by decide)⟩

/-- C4 as stated is false: stripping `"``` ```x```"` once yields `"```x"`,
and stripping again yields `"x"`, so the transformation is not idempotent —
removing the outer markers can expose a new marker at the boundary. -/
theorem fence_strip_not_idempotent :
    cleanFences (cleanFences ("``` ```x```".toList))
        ≠ cleanFences ("``` ```x```".toList)
    ∧ cleanFences ("``` ```x```".toList) = ("```x".toList)
    ∧ cleanFences (cleanFences ("``` ```x```".toList)) = ("x".toList) :=
  ⟨by decide, by decide, by decide⟩

/-- C4 amended: the fence-stripping transformation is idempotent on every
input whose once-stripped form does not itself begin or end with a
triple-backtick marker; re-applying it there is a no-op. -/
theorem fence_strip_idempotent_amended (s : List Char)
    (h1 : List.isPrefixOf ("```".toList) (cleanFences s) = false)
    (h2 : List.isSuffixOf ("```".toList) (cleanFences s) = false) :
    cleanFences (cleanFences s) = cleanFences s :=
  calc cleanFences (cleanFences s)
      = stripTrailingFence (stripLeadingFence (pyStrip (cleanFences s))) := rfl
    _ = stripTrailingFence (stripLeadingFence (cleanFences s)) := by
        rw [pyStrip_cleanFences]
    _ = stripTrailingFence (cleanFences s) := by rw [stripLeadingFence_eq_self h1]
    _ = cleanFences s := stripTrailingFence_eq_self h2 (lastNotWs_cleanFences s)

theorem fence_strip_idempotent_amended_witness :
    List.isPrefixOf ("```".toList) (cleanFences ("```json\nnull\n```".toList))
        = false
    ∧ List.isSuffixOf ("```".toList) (cleanFences ("```json\nnull\n```".toList))
        = false
    ∧ cleanFences (cleanFences ("```json\nnull\n```".toList))
        = cleanFences ("```json\nnull\n```".toList) :=
  ⟨by decide, by decide,
    fence_strip_idempotent_amended ("```json\nnull\n```".toList)
      (by decide) (by decide)⟩

/-- C5 as stated is false: the tag match is case-sensitive, so an
uppercase-tagged fence ` ```JSON ... ``` ` keeps the tag text and the
normalizer reports a parse failure instead of the parsed object, while the
lowercase-tagged twin parses. -/
theorem uppercase_fence_tag_not_stripped :
    structured_json_post ("```JSON\n\x7b\"answer\": \"hi\"\x7d\n```".toList)
        = .parseError "Failed to parse JSON"
            ("```JSON\n\x7b\"answer\": \"hi\"\x7d\n```".toList)
    ∧ structured_json_post ("```JSON\n\x7b\"answer\": \"hi\"\x7d\n```".toList)
        ≠ .parsed (.obj [(("answer".toList), .str ("hi".toList))])
    ∧ structured_json_post ("```json\n\x7b\"answer\": \"hi\"\x7d\n```".toList)
        = .parsed (.obj [(("answer".toList), .str ("hi".toList))]) :=
  ⟨rfl, fun h => StructuredAnswer.noConfusion h, rfl⟩

/-- C5 amended: the leading fence marker is stripped with its tag only for
the lowercase tag `json`; for any other casing only the backticks are
removed and the tag text remains, so an uppercase-tagged well-formed JSON
fence yields a parse-failure result, not the parsed object. -/
theorem json_tag_lowercase_only :
    (∀ rest : List Char,
        stripLeadingFence (("```json".toList) ++ rest) = rest.dropWhile isPyWs)
    ∧ (∀ rest : List Char,
        stripLeadingFence (("```JSON".toList) ++ rest) = ("JSON".toList) ++ rest)
    ∧ structured_json_post ("```json\n\x7b\"answer\": \"hi\"\x7d\n```".toList)
        = .parsed (.obj [(("answer".toList), .str ("hi".toList))]) :=
  ⟨fun rest => by cases rest <;> rfl, fun rest => by cases rest <;> rfl, rfl⟩

end GenAI





